import Mathlib

/-!
Shallow embedding of oak's response-materialization layer (`src/response.ts`):
the mutable `Response` model, its guarded property setters, the lazy status
getter, body resolution, content-type synthesis, the redirect helper and the
memoized terminal conversion `toServerResponse`.

JavaScript values that can be stored in `body` are modelled by the inductive
`JSValue`; JS `typeof` and truthiness are modelled explicitly.  Mutation is
modelled by explicit state passing: a setter returns `Except JSError Response`
(on error the state is unchanged, as the source throws before assigning), and
the compound operations `redirect` and `toServerResponse` return
`Except (JSError × Response) …` so that the state at the moment of the throw is
observable (the source mutates the shared `Headers` object before a guarded
setter can throw).

The memoized payload's `headers` field is the same `Headers` object as the
response's own (`return this.#serverResponse = { …, headers }` stores the live
object).  After finalization the `headers` setter always throws, so the payload
and the response share one headers object forever; we model this exactly by
memoizing only the status and body (`SRCore`) and reconstituting the payload
from the response's current headers (`payloadOf`).

External collaborators that live outside `src/` (`isHtml`, `encodeUrl`,
`encodeURI`, the MIME lookup `contentType`) are taken as function parameters,
exactly as the spec describes them ("an injected pure function").
-/

namespace Oak

/-- Headers: an ordered multimap with case-insensitive names, modelling the JS
`Headers` class.  Names are normalized to lower case on insertion, as the
`Headers` class does. -/
abbrev HeaderList := List (String × String)

/-- ASCII lower-casing of a header name (the normalization the JS `Headers`
class applies to names). -/
def lowerName (s : String) : String := String.mk (s.data.map Char.toLower)

/-- Headers.append: adds an entry at the end. -/
def hdrAppend (hs : HeaderList) (name value : String) : HeaderList :=
  hs ++ [(lowerName name, value)]

/-- Headers.has: case-insensitive membership. -/
def hdrHas (hs : HeaderList) (name : String) : Bool :=
  hs.any (fun p => p.1 == lowerName name)

/-- Headers.get: returns all values for the name joined with a comma (the JS
behaviour), or none when the header is absent. -/
def hdrGet (hs : HeaderList) (name : String) : Option String :=
  let vs := (hs.filter (fun p => p.1 == lowerName name)).map (fun p => p.2)
  match vs with
  | [] => none
  | _ => some (String.intercalate ", " vs)

/-- Headers.set: replace the first entry with the name (dropping any later
duplicates), or append when absent; the name is already lower-cased by the
caller wrapper `hdrSet`. -/
def hdrSetAux : HeaderList → String → String → HeaderList
  | [], n, v => [(n, v)]
  | (k, w) :: rest, n, v =>
    if k == n then (n, v) :: rest.filter (fun p => !(p.1 == n))
    else (k, w) :: hdrSetAux rest n v

/-- Headers.set with case normalization. -/
def hdrSet (hs : HeaderList) (name value : String) : HeaderList :=
  hdrSetAux hs (lowerName name) value

/-- JavaScript runtime values that middleware may assign to `body`.  `bytes`
is a `Uint8Array`, `reader` a `Deno.Reader` (an object with a callable `read`),
`obj` any other non-null structured value carrying its `JSON.stringify`
serialization, `func` a function value. -/
inductive JSValue where
  | undef
  | null
  | str (s : String)
  | num (n : Int)
  | bigint (n : Int)
  | bool (b : Bool)
  | symbol (description : String)
  | bytes (data : List Nat)
  | reader (id : Nat)
  | obj (json : String)
  | func (id : Nat)
deriving DecidableEq

/-- JS `typeof`. -/
def typeofv : JSValue → String
  | .undef => "undefined"
  | .null => "object"
  | .str _ => "string"
  | .num _ => "number"
  | .bigint _ => "bigint"
  | .bool _ => "boolean"
  | .symbol _ => "symbol"
  | .bytes _ => "object"
  | .reader _ => "object"
  | .obj _ => "object"
  | .func _ => "function"

/-- JS truthiness. -/
def truthy : JSValue → Bool
  | .undef => false
  | .null => false
  | .str s => !(s == "")
  | .num n => !(n == 0)
  | .bigint n => !(n == 0)
  | .bool b => b
  | .symbol _ => true
  | .bytes _ => true
  | .reader _ => true
  | .obj _ => true
  | .func _ => true

/-- JS `String(value)` for the primitive-typed values that reach the
stringification branch of body resolution. -/
def jsString : JSValue → String
  | .str s => s
  | .num n => toString n
  | .bigint n => toString n
  | .bool b => if b then "true" else "false"
  | .symbol d => "Symbol(" ++ d ++ ")"
  | _ => ""

/-- JS `JSON.stringify` for the structured values that reach the JSON branch
of body resolution (an `obj` carries its serialization). -/
def jsonStringify : JSValue → String
  | .obj j => j
  | _ => ""

/-- The `BODY_TYPES` constant of `response.ts`. -/
def BODY_TYPES : List String := ["string", "number", "bigint", "boolean", "symbol"]

/-- Guard for `Deno.Reader` (`isReader` in `response.ts`). -/
def isReader : JSValue → Bool
  | .reader _ => true
  | _ => false

/-- Guard for `value instanceof Uint8Array`. -/
def isUint8Array : JSValue → Bool
  | .bytes _ => true
  | _ => false

/-- UTF-8 encoding of one code point (`TextEncoder` on one character). -/
def utf8Bytes (c : Nat) : List Nat :=
  if c < 0x80 then [c]
  else if c < 0x800 then
    [0xc0 + c / 0x40, 0x80 + c % 0x40]
  else if c < 0x10000 then
    [0xe0 + c / 0x1000, 0x80 + c / 0x40 % 0x40, 0x80 + c % 0x40]
  else
    [0xf0 + c / 0x40000, 0x80 + c / 0x1000 % 0x40, 0x80 + c / 0x40 % 0x40,
      0x80 + c % 0x40]

/-- The module-level `encoder` (`TextEncoder.encode`): UTF-8 bytes of a
string. -/
def encode (s : String) : List Nat :=
  s.data.foldr (fun ch acc => utf8Bytes ch.toNat ++ acc) []

/-- HTTP status constants used by `response.ts` (from the `Status` enum). -/
def Status.OK : Nat := 200

/-- Status.NotFound. -/
def Status.NotFound : Nat := 404

/-- Status.Found. -/
def Status.Found : Nat := 302

/-- Modelled from the spec: `isRedirectStatus` lives in `util.ts`, which is
not under `src/`; the spec calls these the "redirect-class" statuses. -/
def isRedirectStatus (s : Nat) : Bool :=
  [300, 301, 302, 303, 305, 307, 308].contains s

/-- Errors thrown by `response.ts`: the `"The response is not writable."`
`Error` of the guarded setters, and the `"Response body was set, but could not
convert"` `TypeError` of body resolution. -/
inductive JSError where
  | notWritable
  | conversionError
deriving DecidableEq

/-- Modelled from the spec: the request object (`request.ts` is not under
`src/`).  The spec allows the response read-only access to a header lookup
(used for `Referrer`) and to the `accepts("html")` content-negotiation query,
modelled as a boolean. -/
structure Request where
  headers : HeaderList
  acceptsHtml : Bool
deriving DecidableEq

/-- A resolved response body: `Uint8Array` bytes or a `Deno.Reader` passed
through. -/
inductive BodyRes where
  | bytes (data : List Nat)
  | reader (id : Nat)
deriving DecidableEq

/-- The status and body stored by the memoized `#serverResponse`; its headers
field is the live headers object of the response (see module docstring). -/
structure SRCore where
  status : Nat
  body : Option BodyRes
deriving DecidableEq

/-- The `ServerResponse` payload handed to the transport layer. -/
structure ServerResponse where
  status : Nat
  headers : HeaderList
  body : Option BodyRes
deriving DecidableEq

/-- The private state of a `Response` instance: `#body`, `#headers`,
`#request`, `#serverResponse`, `#status`, `#type`, `#writable`. -/
structure Response where
  body : JSValue
  headers : HeaderList
  request : Request
  serverResponse : Option SRCore
  status : Option Nat
  type : Option String
  writable : Bool
deriving DecidableEq

/-- A freshly constructed response (`new Response(request)`). -/
def Response.mk0 (request : Request) : Response :=
  { body := JSValue.undef, headers := [], request := request,
    serverResponse := none, status := none, type := none, writable := true }

/-- The `body` setter: guarded by writability. -/
def Response.bodySet (v : JSValue) (r : Response) : Except JSError Response :=
  if r.writable then .ok { r with body := v } else .error .notWritable

/-- The `headers` setter: guarded by writability; replaces the whole
collection. -/
def Response.headersSet (v : HeaderList) (r : Response) : Except JSError Response :=
  if r.writable then .ok { r with headers := v } else .error .notWritable

/-- The `status` setter: guarded by writability. -/
def Response.statusSet (v : Nat) (r : Response) : Except JSError Response :=
  if r.writable then .ok { r with status := some v } else .error .notWritable

/-- The `type` setter: guarded by writability. -/
def Response.typeSet (v : String) (r : Response) : Except JSError Response :=
  if r.writable then .ok { r with type := some v } else .error .notWritable

/-- The `status` getter: the explicit status if set (and truthy), else derived
from the body: `OK` when the body is truthy and of a `BODY_TYPES` kind or of
`typeof === "object"`, else `NotFound`. -/
def Response.statusGet (r : Response) : Nat :=
  match r.status with
  | some s =>
    if !(s == 0) then s
    else
      if truthy r.body &&
          (BODY_TYPES.contains (typeofv r.body) || typeofv r.body == "object")
      then Status.OK else Status.NotFound
  | none =>
    if truthy r.body &&
        (BODY_TYPES.contains (typeofv r.body) || typeofv r.body == "object")
    then Status.OK else Status.NotFound

/-- JS `this.type || fallback` as used by `#getBody`: the stored type when it
is a non-empty string, else the fallback. -/
def strOrElse (t : Option String) (fallback : String) : String :=
  match t with
  | some s => if s == "" then fallback else s
  | none => fallback

/-- `#getBody`: classify the body and convert it to bytes or a reader,
inferring `type` (through the guarded `type` setter) for primitive and
structured bodies; throws `TypeError` when the body is truthy but matched no
rule. -/
def Response.getBody (isHtml : String → Bool) (r : Response) :
    Except JSError (Option BodyRes × Response) :=
  let typeofBody := typeofv r.body
  if BODY_TYPES.contains typeofBody then
    let bodyText := jsString r.body
    match Response.typeSet
        (strOrElse r.type (if isHtml bodyText then "html" else "text/plain")) r with
    | .error e => .error e
    | .ok r1 => .ok (some (BodyRes.bytes (encode bodyText)), r1)
  else if isUint8Array r.body || isReader r.body then
    match r.body with
    | .bytes d => .ok (some (BodyRes.bytes d), r)
    | .reader i => .ok (some (BodyRes.reader i), r)
    | _ => .ok (none, r)
  else if truthy r.body && typeofBody == "object" then
    match Response.typeSet (strOrElse r.type "json") r with
    | .error e => .error e
    | .ok r1 => .ok (some (BodyRes.bytes (encode (jsonStringify r.body))), r1)
  else if truthy r.body then
    .error .conversionError
  else
    .ok (none, r)

/-- `#setContentType`: when `type` is set (and truthy) and the MIME lookup
resolves it to a truthy string and no `Content-Type` header exists, append the
resolved value as `Content-Type`. -/
def Response.setContentType (contentType : String → Option String) (r : Response) :
    Response :=
  match r.type with
  | none => r
  | some t =>
    if t == "" then r
    else
      match contentType t with
      | none => r
      | some ct =>
        if !(ct == "") && !(hdrHas r.headers "Content-Type") then
          { r with headers := hdrAppend r.headers "Content-Type" ct }
        else r

/-- The payload observable through the memoized `#serverResponse`: its headers
field aliases the response's live headers object. -/
def Response.payloadOf (r : Response) : Option ServerResponse :=
  match r.serverResponse with
  | none => none
  | some c => some { status := c.status, headers := r.headers, body := c.body }

/-- `toServerResponse`: memoized terminal conversion.  On the first call:
resolve the body, synthesize the content type, append `Content-Length: 0` when
there is no body and neither `Content-Type` nor `Content-Length` header, set
writable to false, store and return the payload.  Later calls return the
memoized payload. -/
def Response.toServerResponse (isHtml : String → Bool)
    (contentType : String → Option String) (r : Response) :
    Except (JSError × Response) (ServerResponse × Response) :=
  match r.serverResponse with
  | some c =>
    .ok ({ status := c.status, headers := r.headers, body := c.body }, r)
  | none =>
    match Response.getBody isHtml r with
    | .error e => .error (e, r)
    | .ok (body, r1) =>
      let r2 := Response.setContentType contentType r1
      let headers :=
        if !(body.isSome || hdrHas r2.headers "Content-Type" ||
            hdrHas r2.headers "Content-Length") then
          hdrAppend r2.headers "Content-Length" "0"
        else r2.headers
      let finalStatus :=
        match r2.status with
        | some s => s
        | none => if body.isSome then Status.OK else Status.NotFound
      let payload : ServerResponse :=
        { status := finalStatus, headers := headers, body := body }
      let r3 := { r2 with
        headers := headers, writable := false,
        serverResponse := some { status := finalStatus, body := body } }
      .ok (payload, r3)

/-- The argument shapes of `redirect`: a URL string, a `URL` object (carrying
its string coercion), or the `REDIRECT_BACK` sentinel. -/
inductive RedirectUrl where
  | url (s : String)
  | urlObject (href : String)
  | back
deriving DecidableEq

/-- The target resolution at the top of `redirect`: the sentinel reads the
request's `Referrer` header with the (stringified) `alt` as fallback; a `URL`
object is coerced to its string. -/
def resolveRedirectUrl (req : Request) (u : RedirectUrl) (alt : String) : String :=
  match u with
  | .back =>
    match hdrGet req.headers "Referrer" with
    | some ref => ref
    | none => alt
  | .urlObject href => href
  | .url s => s

/-- `redirect`: sets `Location` on the shared headers object (through the
unguarded `headers` getter), forces status `302 Found` through the guarded
setter unless the current status is a redirect status, then negotiates the
body and type by `request.accepts("html")` through the guarded setters.  The
`alt` parameter defaults to `"/"` at the call sites modelled here. -/
def Response.redirect (encodeUrl encodeURIFn : String → String)
    (u : RedirectUrl) (alt : String) (r : Response) :
    Except (JSError × Response) Response :=
  let target := resolveRedirectUrl r.request u alt
  let r1 := { r with headers := hdrSet r.headers "Location" (encodeUrl target) }
  let afterStatus : Except (JSError × Response) Response :=
    if Response.statusGet r1 == 0 || !(isRedirectStatus (Response.statusGet r1)) then
      match Response.statusSet Status.Found r1 with
      | .error e => .error (e, r1)
      | .ok r2 => .ok r2
    else .ok r1
  match afterStatus with
  | .error e => .error e
  | .ok r2 =>
    if r2.request.acceptsHtml then
      let urlText := encodeURIFn target
      match Response.typeSet "text/html; charset=utf-8" r2 with
      | .error e => .error (e, r2)
      | .ok r3 =>
        match Response.bodySet
            (JSValue.str ("Redirecting to <a href=\"" ++ urlText ++ "\">" ++
              urlText ++ "</a>.")) r3 with
        | .error e => .error (e, r3)
        | .ok r4 => .ok r4
    else
      match Response.typeSet "text/plain; charset=utf-8" r2 with
      | .error e => .error (e, r2)
      | .ok r3 =>
        match Response.bodySet
            (JSValue.str ("Redirecting to " ++ target ++ ".")) r3 with
        | .error e => .error (e, r3)
        | .ok r4 => .ok r4

/-! ## Shared helper lemmas and sample collaborators -/

/-- Decidable equality for `Except`, so that concrete runs of the fallible
operations can be checked by `decide`. -/
instance {e a : Type} [DecidableEq e] [DecidableEq a] : DecidableEq (Except e a) := fun x y =>
  match x, y with
  | .ok u, .ok w => if h : u = w then isTrue (by rw [h]) else isFalse (by simp [h])
  | .error u, .error w => if h : u = w then isTrue (by rw [h]) else isFalse (by simp [h])
  | .ok _, .error _ => isFalse (by simp)
  | .error _, .ok _ => isFalse (by simp)

/-- Sample HTML detector for concrete instantiations. -/
def noHtml : String → Bool := fun _ => false

/-- Sample MIME lookup that resolves nothing. -/
def noMime : String → Option String := fun _ => none

/-- Sample URL escaping (the identity). -/
def idUrl : String → String := fun s => s

/-- A request with no headers that does not accept html. -/
def req0 : Request := { headers := [], acceptsHtml := false }

/-- A fresh response on `req0`. -/
def r0 : Response := Response.mk0 req0

/-- A fresh response whose body is the number `0`: JS-falsy but defined and
non-null. -/
def bodyZero : Response := { Response.mk0 req0 with body := JSValue.num 0 }

/-- The payload produced by finalizing the fresh response `r0`. -/
def p0 : ServerResponse :=
  { status := 404, headers := [("content-length", "0")], body := none }

/-- The state of `r0` after terminal conversion. -/
def rFin : Response :=
  { body := JSValue.undef, headers := [("content-length", "0")], request := req0,
    serverResponse := some { status := 404, body := none }, status := none,
    type := none, writable := false }

theorem hdrSetAux_filter (hs : HeaderList) (n v : String) :
    (hdrSetAux hs n v).filter (fun p => p.1 == n) = [(n, v)] := by
  induction hs with
  | nil => simp [hdrSetAux]
  | cons kv rest ih =>
    obtain ⟨k, w⟩ := kv
    cases hk : k == n with
    | true =>
      have hnil : (rest.filter (fun p => !(p.1 == n))).filter
          (fun p => p.1 == n) = [] := by
        rw [List.filter_eq_nil_iff]
        intro a ha
        have hmem := List.of_mem_filter ha
        simp only [Bool.not_eq_true'] at hmem
        simp [hmem]
      simp [hdrSetAux, hk, hnil]
    | false =>
      simp [hdrSetAux, hk, ih]

theorem hdrGet_hdrSet (hs : HeaderList) (n v : String) :
    hdrGet (hdrSet hs n v) n = some v := by
  unfold hdrGet hdrSet
  rw [hdrSetAux_filter]
  simp [String.intercalate, String.intercalate.go]

theorem statusGet_ne_zero (r : Response) : (Response.statusGet r == 0) = false := by
  have hne : Response.statusGet r ≠ 0 := by
    unfold Response.statusGet
    split
    · split
      · simp_all
      · split
        · decide
        · decide
    · split
      · decide
      · decide
  simp [hne]

theorem statusGet_of_none (r : Response) (h : r.status = none) :
    Response.statusGet r = Status.OK ∨ Response.statusGet r = Status.NotFound := by
  simp only [Response.statusGet, h]
  split
  · exact Or.inl rfl
  · exact Or.inr rfl

/-! ## Claim C1 -/

/-- C1 counterexample: the claim says a fresh response's `status` reads `OK`
iff `body` is non-null/defined; but the body `0` (a defined, non-null number)
is JS-falsy, and the getter reads `NotFound` for it. -/
theorem spec_C1_counterexample :
    bodyZero.status = none ∧ bodyZero.body ≠ JSValue.null ∧
    bodyZero.body ≠ JSValue.undef ∧
    Response.statusGet bodyZero = Status.NotFound ∧
    Status.NotFound ≠ Status.OK := by decide

/-- C1 (amended): on a response with no explicit status, the `status` getter
reads `OK` exactly when the body is JS-truthy and not a function value, and
`NotFound` otherwise; falsy bodies (absent, null, empty string, zero `0` or
`0n`, `false`) read `NotFound` even though some of them are defined non-null
primitives. -/
theorem spec_C1 (r : Response) (h : r.status = none) :
    Response.statusGet r =
      if truthy r.body && !(typeofv r.body == "function") then Status.OK
      else Status.NotFound := by
  simp only [Response.statusGet, h]
  cases r.body <;> simp [truthy, typeofv, BODY_TYPES]

/-- C1 witness: the amended theorem evaluated on the concrete falsy body `0`. -/
theorem spec_C1_witness :
    Response.statusGet bodyZero =
      if truthy bodyZero.body && !(typeofv bodyZero.body == "function") then
        Status.OK
      else Status.NotFound :=
  spec_C1 bodyZero rfl

/-! ## Claims C2 and C3 -/

/-- C2: after `toServerResponse` succeeds on an unfinalized response, the
response is no longer writable, and every assignment to `body`, `headers`,
`status` or `type` fails with the not-writable error. -/
theorem spec_C2 (isHtml : String → Bool) (contentType : String → Option String)
    (r : Response) (p : ServerResponse) (r2 : Response)
    (hsr : r.serverResponse = none)
    (h : Response.toServerResponse isHtml contentType r = .ok (p, r2))
    (v : JSValue) (hs : HeaderList) (s : Nat) (t : String) :
    r2.writable = false ∧
    Response.bodySet v r2 = .error JSError.notWritable ∧
    Response.headersSet hs r2 = .error JSError.notWritable ∧
    Response.statusSet s r2 = .error JSError.notWritable ∧
    Response.typeSet t r2 = .error JSError.notWritable := by
  have hw : r2.writable = false := by
    rw [Response.toServerResponse] at h
    rw [hsr] at h
    cases hgb : Response.getBody isHtml r with
    | error e => rw [hgb] at h; exact absurd h (by simp)
    | ok val =>
      obtain ⟨b, r1⟩ := val
      rw [hgb] at h
      simp only [Except.ok.injEq, Prod.mk.injEq] at h
      rw [← h.2]
  refine ⟨hw, ?_, ?_, ?_, ?_⟩ <;>
    simp [Response.bodySet, Response.headersSet, Response.statusSet,
      Response.typeSet, hw]

/-- C2 witness: the theorem evaluated at the fresh response `r0` and concrete
assignment attempts. -/
theorem spec_C2_witness :
    rFin.writable = false ∧
    Response.bodySet (JSValue.str "late") rFin = .error JSError.notWritable ∧
    Response.headersSet [] rFin = .error JSError.notWritable ∧
    Response.statusSet 500 rFin = .error JSError.notWritable ∧
    Response.typeSet "css" rFin = .error JSError.notWritable :=
  spec_C2 noHtml noMime r0 p0 rFin rfl (by decide) (JSValue.str "late") [] 500 "css"

/-- C3: a successful `toServerResponse` memoizes: calling it again on the
returned state yields the very same payload and leaves the state unchanged,
and the memoized record holds exactly the payload's status and body. -/
theorem spec_C3 (isHtml : String → Bool) (contentType : String → Option String)
    (r : Response) (p : ServerResponse) (r2 : Response)
    (h : Response.toServerResponse isHtml contentType r = .ok (p, r2)) :
    Response.toServerResponse isHtml contentType r2 = .ok (p, r2) ∧
    r2.serverResponse = some { status := p.status, body := p.body } := by
  cases hsr : r.serverResponse with
  | some c =>
    rw [Response.toServerResponse] at h
    rw [hsr] at h
    simp only [Except.ok.injEq, Prod.mk.injEq] at h
    obtain ⟨hp, hr⟩ := h
    subst hr
    constructor
    · rw [Response.toServerResponse, hsr, ← hp]
    · rw [hsr, ← hp]
  | none =>
    rw [Response.toServerResponse] at h
    rw [hsr] at h
    cases hgb : Response.getBody isHtml r with
    | error e => rw [hgb] at h; exact absurd h (by simp)
    | ok val =>
      obtain ⟨b, r1⟩ := val
      rw [hgb] at h
      simp only [Except.ok.injEq, Prod.mk.injEq] at h
      obtain ⟨hp, hr⟩ := h
      subst hr
      rw [Response.toServerResponse]
      constructor
      · rw [← hp]
      · rw [← hp]

/-- C3 witness: the theorem evaluated at the fresh response `r0`: a second
conversion returns the same payload `p0` and the same state `rFin`. -/
theorem spec_C3_witness :
    Response.toServerResponse noHtml noMime rFin = .ok (p0, rFin) ∧
    rFin.serverResponse = some { status := p0.status, body := p0.body } :=
  spec_C3 noHtml noMime r0 p0 rFin (by decide)

/-! ## Claims C4 to C7 -/

/-- A fresh response whose body is a function value: truthy but convertible by
no rule of body resolution. -/
def bodyFunc : Response := { Response.mk0 req0 with body := JSValue.func 0 }

/-- A fresh response whose body is a structured value and whose type was
explicitly set to the empty string. -/
def objEmptyType : Response :=
  { Response.mk0 req0 with body := JSValue.obj "[1]", type := some "" }

theorem hdrGet_hdrAppend_of_not_has (H : HeaderList) (n v : String)
    (h : hdrHas H n = false) : hdrGet (hdrAppend H n v) n = some v := by
  unfold hdrHas at h
  rw [List.any_eq_false] at h
  unfold hdrGet hdrAppend
  have hfil : H.filter (fun p => p.1 == lowerName n) = [] := by
    rw [List.filter_eq_nil_iff]
    intro a ha
    exact fun hc => h a ha hc
  simp only [List.filter_append, hfil, List.nil_append, List.filter_cons]
  simp [String.intercalate, String.intercalate.go]

/-- C4: when the body is truthy but is neither of a primitive kind, nor a
`Uint8Array`, nor a reader, nor of `typeof "object"`, terminal conversion
fails with the conversion error and the model is left unchanged: still
unfinalized and still writable, so the body could be fixed and conversion
retried. -/
theorem spec_C4 (isHtml : String → Bool) (contentType : String → Option String)
    (r : Response) (hsr : r.serverResponse = none) (hw : r.writable = true)
    (ht : truthy r.body = true)
    (h1 : BODY_TYPES.contains (typeofv r.body) = false)
    (h2 : isUint8Array r.body = false) (h3 : isReader r.body = false)
    (h4 : typeofv r.body ≠ "object") :
    Response.toServerResponse isHtml contentType r =
      .error (JSError.conversionError, r) ∧
    r.writable = true ∧ r.serverResponse = none := by
  refine ⟨?_, hw, hsr⟩
  have h1m : ¬(typeofv r.body ∈ BODY_TYPES) := by simpa using h1
  have hgb : Response.getBody isHtml r = .error JSError.conversionError := by
    unfold Response.getBody
    simp [h1m, h2, h3, h4, ht]
  rw [Response.toServerResponse, hsr, hgb]

/-- C4 witness: the theorem evaluated on a function-valued body. -/
theorem spec_C4_witness :
    Response.toServerResponse noHtml noMime bodyFunc =
      .error (JSError.conversionError, bodyFunc) ∧
    bodyFunc.writable = true ∧ bodyFunc.serverResponse = none :=
  spec_C4 noHtml noMime bodyFunc rfl rfl rfl rfl rfl rfl (by decide)

/-- C5: for every body of a primitive kind (string, number, bigint, boolean,
symbol), body resolution stringifies the body and encodes the text to bytes
(it is never treated by the structured-value JSON rule); `type` is reassigned
through `this.type || fallback`, so when `type` was still unset it becomes
`"html"` when the text is detected as HTML and `"text/plain"` otherwise. -/
theorem spec_C5 (isHtml : String → Bool) (r : Response)
    (hp : BODY_TYPES.contains (typeofv r.body) = true)
    (hw : r.writable = true) :
    Response.getBody isHtml r =
      .ok (some (BodyRes.bytes (encode (jsString r.body))),
        { r with
          type := some (strOrElse r.type
            (if isHtml (jsString r.body) then "html" else "text/plain")) }) ∧
    (r.type = none →
      strOrElse r.type (if isHtml (jsString r.body) then "html"
          else "text/plain") =
        (if isHtml (jsString r.body) then "html" else "text/plain")) := by
  constructor
  · have hpm : typeofv r.body ∈ BODY_TYPES := by simpa using hp
    unfold Response.getBody
    simp [hpm, Response.typeSet, hw]
  · intro hn
    simp [strOrElse, hn]

/-- A fresh response whose body is the number `5`. -/
def rNum5 : Response := { Response.mk0 req0 with body := JSValue.num 5 }

/-- C5 witness: the theorem evaluated on the numeric body `5`, whose type is
unset, so the inferred type is taken. -/
theorem spec_C5_witness :
    (Response.getBody noHtml rNum5 =
      .ok (some (BodyRes.bytes (encode (jsString rNum5.body))),
        { rNum5 with
          type := some (strOrElse rNum5.type
            (if noHtml (jsString rNum5.body) then "html" else "text/plain")) }) ∧
    (rNum5.type = none →
      strOrElse rNum5.type (if noHtml (jsString rNum5.body) then "html"
          else "text/plain") =
        (if noHtml (jsString rNum5.body) then "html" else "text/plain"))) :=
  spec_C5 noHtml rNum5 rfl rfl

/-- C6 counterexample: the claim says `type` becomes `"json"` only if `type`
was not already set; but with `type` explicitly set to the empty string (a
set, falsy hint) the JSON rule still overwrites it with `"json"` instead of
preserving it. -/
theorem spec_C6_counterexample :
    objEmptyType.type = some "" ∧ objEmptyType.type ≠ none ∧
    Response.getBody noHtml objEmptyType =
      .ok (some (BodyRes.bytes (encode "[1]")),
        { objEmptyType with type := some "json" }) ∧
    some "json" ≠ some "" := by decide

/-- C6 (amended): for a truthy structured body (typeof object, not a byte
array, not a reader) body resolution serializes it to JSON text encoded as
bytes; `type` becomes `"json"` iff it was unset or set to the falsy empty
string, and a non-empty explicitly set `type` is preserved. -/
theorem spec_C6 (isHtml : String → Bool) (r : Response)
    (hobj : typeofv r.body = "object") (htr : truthy r.body = true)
    (hnb : isUint8Array r.body = false) (hnr : isReader r.body = false)
    (hw : r.writable = true) :
    ∃ r1, Response.getBody isHtml r =
        .ok (some (BodyRes.bytes (encode (jsonStringify r.body))), r1) ∧
      ((r.type = none ∨ r.type = some "") → r1.type = some "json") ∧
      (∀ t, r.type = some t → t ≠ "" → r1.type = some t) ∧
      r1.headers = r.headers ∧ r1.body = r.body := by
  refine ⟨{ r with type := some (strOrElse r.type "json") }, ?_, ?_, ?_, rfl, rfl⟩
  · have hmem : ¬("object" ∈ BODY_TYPES) := by decide
    unfold Response.getBody
    simp [hobj, htr, hnb, hnr, hmem, Response.typeSet, hw]
  · intro hcase
    rcases hcase with hn | he
    · simp [strOrElse, hn]
    · simp [strOrElse, he]
  · intro t ht1 ht2
    simp [strOrElse, ht1, ht2]

/-- A fresh response with a structured body and an explicitly set non-empty
type. -/
def objCss : Response :=
  { Response.mk0 req0 with body := JSValue.obj "[1]", type := some "css" }

/-- C6 witness: the amended theorem evaluated on a structured body with an
explicitly set non-empty type, which is preserved. -/
theorem spec_C6_witness :
    ∃ r1, Response.getBody noHtml objCss =
        .ok (some (BodyRes.bytes (encode (jsonStringify objCss.body))), r1) ∧
      ((objCss.type = none ∨ objCss.type = some "") → r1.type = some "json") ∧
      (∀ t, objCss.type = some t → t ≠ "" → r1.type = some t) ∧
      r1.headers = objCss.headers ∧ r1.body = objCss.body :=
  spec_C6 noHtml objCss rfl rfl rfl rfl rfl

/-- C7: when the resolved body is absent and, after content-type synthesis,
there is neither a `Content-Type` nor a `Content-Length` header, terminal
conversion appends `Content-Length: 0` to the payload headers; when the body
is present or either header exists, the payload headers are exactly the
post-synthesis headers, with nothing appended. -/
theorem spec_C7 (isHtml : String → Bool) (contentType : String → Option String)
    (r : Response) (b : Option BodyRes) (r1 : Response)
    (hsr : r.serverResponse = none)
    (hgb : Response.getBody isHtml r = .ok (b, r1)) :
    (b = none →
      hdrHas (Response.setContentType contentType r1).headers "Content-Type" = false →
      hdrHas (Response.setContentType contentType r1).headers "Content-Length" = false →
      ∃ p r3, Response.toServerResponse isHtml contentType r = .ok (p, r3) ∧
        p.headers = hdrAppend (Response.setContentType contentType r1).headers
          "Content-Length" "0" ∧
        hdrGet p.headers "Content-Length" = some "0") ∧
    ((b.isSome || hdrHas (Response.setContentType contentType r1).headers "Content-Type" ||
        hdrHas (Response.setContentType contentType r1).headers "Content-Length") = true →
      ∃ p r3, Response.toServerResponse isHtml contentType r = .ok (p, r3) ∧
        p.headers = (Response.setContentType contentType r1).headers) := by
  constructor
  · intro hb hct hcl
    subst hb
    rw [Response.toServerResponse, hsr, hgb]
    simp only [Option.isSome_none, hct, hcl, Bool.or_self, Bool.or_false,
      Bool.not_false, if_pos]
    refine ⟨_, _, rfl, rfl, ?_⟩
    exact hdrGet_hdrAppend_of_not_has _ _ _ hcl
  · intro hcond
    rw [Response.toServerResponse, hsr, hgb]
    simp only [hcond, Bool.not_true, Bool.false_eq_true, if_neg]
    exact ⟨_, _, rfl, rfl⟩

/-- C7 witness: the empty-body branch of the theorem evaluated on the fresh
response `r0`, whose payload carries `Content-Length: 0`. -/
theorem spec_C7_witness :
    ∃ p r3, Response.toServerResponse noHtml noMime r0 = .ok (p, r3) ∧
      p.headers = hdrAppend (Response.setContentType noMime r0).headers
        "Content-Length" "0" ∧
      hdrGet p.headers "Content-Length" = some "0" :=
  (spec_C7 noHtml noMime r0 none r0 rfl (by decide)).1 rfl (by decide) (by decide)

/-! ## Claims C8 to C10 -/

theorem statusGet_set_headers (r : Response) (H : HeaderList) :
    Response.statusGet { r with headers := H } = Response.statusGet r := rfl

theorem redirect_writable (eU eI : String → String) (u : RedirectUrl)
    (alt : String) (r : Response) (hw : r.writable = true) :
    Response.redirect eU eI u alt r =
      .ok { r with
        headers := hdrSet r.headers "Location"
          (eU (resolveRedirectUrl r.request u alt)),
        status := if isRedirectStatus (Response.statusGet r) then r.status
          else some Status.Found,
        type := some (if r.request.acceptsHtml then "text/html; charset=utf-8"
          else "text/plain; charset=utf-8"),
        body := JSValue.str (if r.request.acceptsHtml then
            "Redirecting to <a href=\"" ++ eI (resolveRedirectUrl r.request u alt) ++
              "\">" ++ eI (resolveRedirectUrl r.request u alt) ++ "</a>."
          else "Redirecting to " ++ resolveRedirectUrl r.request u alt ++ ".") } := by
  unfold Response.redirect
  simp only [statusGet_set_headers, statusGet_ne_zero, Bool.false_or]
  by_cases hred : isRedirectStatus (Response.statusGet r) = true
  · by_cases hacc : r.request.acceptsHtml = true
    · simp [hred, hacc, Response.statusSet, Response.typeSet, Response.bodySet, hw]
    · simp [hred, hacc, Response.statusSet, Response.typeSet, Response.bodySet, hw]
  · by_cases hacc : r.request.acceptsHtml = true
    · simp [hred, hacc, Response.statusSet, Response.typeSet, Response.bodySet, hw]
    · simp [hred, hacc, Response.statusSet, Response.typeSet, Response.bodySet, hw]

/-- C8: on a writable response whose request carries no `Referrer` header,
redirecting to the back sentinel with the default `alt` of `"/"` sets the
`Location` header to the escaped form of `"/"`, and forces the status to
`302 Found` since the unset status derives to a non-redirect value. -/
theorem spec_C8 (eU eI : String → String) (r : Response)
    (hw : r.writable = true)
    (href : hdrGet r.request.headers "Referrer" = none) :
    ∃ r1, Response.redirect eU eI RedirectUrl.back "/" r = .ok r1 ∧
      hdrGet r1.headers "Location" = some (eU "/") ∧
      ((r.status = none ∨ isRedirectStatus (Response.statusGet r) = false) →
        r1.status = some Status.Found) := by
  have htar : resolveRedirectUrl r.request RedirectUrl.back "/" = "/" := by
    unfold resolveRedirectUrl
    rw [href]
  refine ⟨_, redirect_writable eU eI RedirectUrl.back "/" r hw, ?_, ?_⟩
  · simp only [htar]
    exact hdrGet_hdrSet _ _ _
  · intro hc
    have hnr : isRedirectStatus (Response.statusGet r) = false := by
      rcases hc with hn | hf
      · rcases statusGet_of_none r hn with h | h <;> rw [h] <;> decide
      · exact hf
    simp [hnr]

/-- C8 witness: the theorem evaluated on the fresh response `r0`, whose
request has no headers, with the identity as URL escaping. -/
theorem spec_C8_witness :
    ∃ r1, Response.redirect idUrl idUrl RedirectUrl.back "/" r0 = .ok r1 ∧
      hdrGet r1.headers "Location" = some (idUrl "/") ∧
      ((r0.status = none ∨ isRedirectStatus (Response.statusGet r0) = false) →
        r1.status = some Status.Found) :=
  spec_C8 idUrl idUrl r0 rfl (by decide)

/-- C9: on a writable response, redirect negotiates `body` and `type` by the
request's accept-html query: if the client accepts html, `type` becomes
`"text/html; charset=utf-8"` and the body is an HTML anchor message around
the URI-escaped target; otherwise `type` becomes `"text/plain; charset=utf-8"`
and the body is a plain-text message naming the target. -/
theorem spec_C9 (eU eI : String → String) (u : RedirectUrl) (alt : String)
    (r : Response) (hw : r.writable = true) :
    ∃ r1, Response.redirect eU eI u alt r = .ok r1 ∧
      (r.request.acceptsHtml = true →
        r1.type = some "text/html; charset=utf-8" ∧
        r1.body = JSValue.str ("Redirecting to <a href=\"" ++
          eI (resolveRedirectUrl r.request u alt) ++ "\">" ++
          eI (resolveRedirectUrl r.request u alt) ++ "</a>.")) ∧
      (r.request.acceptsHtml = false →
        r1.type = some "text/plain; charset=utf-8" ∧
        r1.body = JSValue.str ("Redirecting to " ++
          resolveRedirectUrl r.request u alt ++ ".")) := by
  refine ⟨_, redirect_writable eU eI u alt r hw, ?_, ?_⟩ <;>
    intro hacc <;> simp [hacc]

/-- C9 witness: the theorem evaluated on the fresh response `r0` (whose
request does not accept html) redirected to the explicit URL `/next`. -/
theorem spec_C9_witness :
    ∃ r1, Response.redirect idUrl idUrl (RedirectUrl.url "/next") "/" r0 = .ok r1 ∧
      (r0.request.acceptsHtml = true →
        r1.type = some "text/html; charset=utf-8" ∧
        r1.body = JSValue.str ("Redirecting to <a href=\"" ++
          idUrl (resolveRedirectUrl r0.request (RedirectUrl.url "/next") "/") ++
          "\">" ++
          idUrl (resolveRedirectUrl r0.request (RedirectUrl.url "/next") "/") ++
          "</a>.")) ∧
      (r0.request.acceptsHtml = false →
        r1.type = some "text/plain; charset=utf-8" ∧
        r1.body = JSValue.str ("Redirecting to " ++
          resolveRedirectUrl r0.request (RedirectUrl.url "/next") "/" ++ ".")) :=
  spec_C9 idUrl idUrl (RedirectUrl.url "/next") "/" r0 rfl

/-- C10: calling redirect on a finalized response throws the not-writable
error at the first guarded setter it reaches, but only after the `Location`
header has been set in place on the shared headers object; consequently the
memoized payload observable afterwards carries the changed headers. -/
theorem spec_C10 (eU eI : String → String) (u : RedirectUrl) (alt : String)
    (r : Response) (c : SRCore)
    (hw : r.writable = false) (hsr : r.serverResponse = some c) :
    Response.redirect eU eI u alt r =
      .error (JSError.notWritable,
        { r with
          headers := hdrSet r.headers "Location"
            (eU (resolveRedirectUrl r.request u alt)) }) ∧
    Response.payloadOf
        { r with
          headers := hdrSet r.headers "Location"
            (eU (resolveRedirectUrl r.request u alt)) } =
      some
        { status := c.status,
          headers := hdrSet r.headers "Location"
            (eU (resolveRedirectUrl r.request u alt)),
          body := c.body } ∧
    hdrGet (hdrSet r.headers "Location" (eU (resolveRedirectUrl r.request u alt)))
        "Location" = some (eU (resolveRedirectUrl r.request u alt)) := by
  refine ⟨?_, ?_, hdrGet_hdrSet _ _ _⟩
  · unfold Response.redirect
    simp only [statusGet_set_headers, statusGet_ne_zero, Bool.false_or]
    by_cases hred : isRedirectStatus (Response.statusGet r) = true
    · by_cases hacc : r.request.acceptsHtml = true
      · simp [hred, hacc, Response.statusSet, Response.typeSet, hw]
      · simp [hred, hacc, Response.statusSet, Response.typeSet, hw]
    · simp [hred, Response.statusSet, hw]
  · unfold Response.payloadOf
    simp [hsr]

/-- C10 witness: the theorem evaluated on the finalized response `rFin`. -/
theorem spec_C10_witness :
    Response.redirect idUrl idUrl (RedirectUrl.url "/x") "/" rFin =
      .error (JSError.notWritable,
        { rFin with
          headers := hdrSet rFin.headers "Location"
            (idUrl (resolveRedirectUrl rFin.request (RedirectUrl.url "/x") "/")) }) ∧
    Response.payloadOf
        { rFin with
          headers := hdrSet rFin.headers "Location"
            (idUrl (resolveRedirectUrl rFin.request (RedirectUrl.url "/x") "/")) } =
      some
        { status := (404 : Nat),
          headers := hdrSet rFin.headers "Location"
            (idUrl (resolveRedirectUrl rFin.request (RedirectUrl.url "/x") "/")),
          body := (none : Option BodyRes) } ∧
    hdrGet (hdrSet rFin.headers "Location"
        (idUrl (resolveRedirectUrl rFin.request (RedirectUrl.url "/x") "/")))
        "Location" =
      some (idUrl (resolveRedirectUrl rFin.request (RedirectUrl.url "/x") "/")) :=
  spec_C10 idUrl idUrl (RedirectUrl.url "/x") "/" rFin
    { status := 404, body := none } rfl rfl

end Oak
